import Mathlib

/-!
Verification of the Movie Search & Reviews single-page application
(`frontend/index.jsx`) against its natural-language specification.

The React component is shallowly embedded: the UI state (the eight
`useState` hooks) becomes a Lean structure, each handler becomes a pure
state-transition function parameterised by the outcome of the network
request it issues, and the list of HTTP requests an invocation issues is
returned alongside the new state.
-/

namespace MovieApp

/-- A movie summary as returned in the `results` field of the search
endpoint (fields `imdbID`, `Title`, `Year`, `Poster`). -/
structure Movie where
  imdbID : String
  title : String
  year : String
  poster : String
deriving DecidableEq

/-- A persisted review as returned by the reviews endpoint
(fields `id` and `reviewText`). -/
structure Review where
  id : Nat
  reviewText : String
deriving DecidableEq

/-- The component state: one field per `useState` hook of `App`.
`error = ""` plays the role of a null/absent error message (the JSX
renders the error paragraph only when `error` is truthy). -/
structure UIState where
  keyword : String
  page : Nat
  movies : List Movie
  totalResults : Nat
  error : String
  selected : Option String
  reviews : List Review
  reviewText : String
deriving DecidableEq

/-- An HTTP request issued by the component, identified by endpoint and
payload. `createReq` carries the JSON body `{movieTitle, reviewText}` of
the POST to `/api/reviews`. -/
inductive Request where
  | searchReq (q : String) (page : Nat)
  | reviewsReq (title : Option String)
  | createReq (movieTitle : Option String) (reviewText : String)
  | deleteReq (id : Nat)
deriving DecidableEq

/-- ECMAScript whitespace characters removed by `String.prototype.trim`
(the ones relevant to keyboard input). -/
def jsWhitespace (c : Char) : Bool :=
  c = ' ' || c = '\t' || c = '\n' || c = '\r' ||
  c = '\x0b' || c = '\x0c' || c = '\u00A0' || c = '\uFEFF'

/-- Embedding of the JavaScript expression `s.trim()`: strip leading and
trailing whitespace. -/
def jsTrim (s : String) : String :=
  ⟨((s.data.dropWhile jsWhitespace).reverse.dropWhile jsWhitespace).reverse⟩

/-- Embedding of the JavaScript expression `x || d` for a nullable string
`x`: an absent, null, or empty-string field is falsy and yields the
default `d`. Used for `data.error || 'Search failed'`. -/
def jsOrElse (x : Option String) (d : String) : String :=
  match x with
  | none => d
  | some e => if e = "" then d else e

/-- `res.ok` of the Fetch API: status in the inclusive range 200–299. -/
def resOk (status : Nat) : Bool :=
  200 ≤ status && status ≤ 299

/-- Outcome of the `fetch` + `res.json()` sequence in `fetchMovies`:
either a 2xx response whose body parsed (fields `results` and
`totalResults`), a non-2xx response whose body parsed (optional `error`
field), or a rejection (network failure, or `res.json()` threw) carrying
the JavaScript error message. -/
inductive SearchOutcome where
  | ok (results : List Movie) (totalResults : Nat)
  | httpError (errorField : Option String)
  | thrown (msg : String)
deriving DecidableEq

/-- Outcome of the `fetch` + `res.json()` sequence in `fetchReviews`:
a resolved response of any status whose body parsed as JSON (modelled as
a review list), or a rejection. The source's catch block ignores the
error object, so the rejection carries no message. -/
inductive ReviewsOutcome where
  | resolved (status : Nat) (body : List Review)
  | thrown
deriving DecidableEq

/-- Outcome of a `fetch` whose response body is not inspected
(`submitReview`'s POST and `deleteReview`'s DELETE): a resolved response
with its status, or a rejection carrying the error message. -/
inductive PlainOutcome where
  | resolved (status : Nat)
  | thrown (msg : String)
deriving DecidableEq

/-- `fetchMovies(q, p)` (index.jsx lines 49–71): clear `error`, `movies`
and `totalResults`, issue `GET /api/search?q=...&page=p`; on `res.ok`
set `movies`/`totalResults` from the body and `page := p`; otherwise the
thrown `Error(data.error || 'Search failed')` (or the fetch/parse error)
is caught and its message stored in `error`. -/
def fetchMovies (q : String) (p : Nat) (o : SearchOutcome) (s : UIState) :
    UIState × List Request :=
  let s1 := { s with error := "", movies := [], totalResults := 0 }
  match o with
  | .ok results total =>
      ({ s1 with movies := results, totalResults := total, page := p },
       [.searchReq q p])
  | .httpError ef =>
      ({ s1 with error := jsOrElse ef "Search failed" }, [.searchReq q p])
  | .thrown msg =>
      ({ s1 with error := msg }, [.searchReq q p])

/-- `handleSearch` (index.jsx lines 40–46): no-op when the keyword trims
to empty; otherwise clear `error`, reset `selected` to null (the
`useEffect` on `selected` does not fire a fetch for null), and run
`fetchMovies(keyword, 1)`. -/
def handleSearch (o : SearchOutcome) (s : UIState) : UIState × List Request :=
  if jsTrim s.keyword = "" then (s, [])
  else fetchMovies s.keyword 1 o { s with error := "", selected := none }

/-- The `onClick` of a pagination button for page `p`
(index.jsx line 85): `fetchMovies(keyword, p)`, with no guard. -/
def changePage (p : Nat) (o : SearchOutcome) (s : UIState) :
    UIState × List Request :=
  fetchMovies s.keyword p o s

/-- The spec's `Search(keyword, page)` operation, written from §4.1 and
§8 of the specification (not from the source): for an empty-after-trim
keyword it is a no-op issuing no request; otherwise it clears
errorMessage and the prior searchResult, issues the GET, on success sets
items/totalCount/currentPage, and on failure sets errorMessage from the
response's error field if present (JS truthiness) else a generic
message, leaving searchResult empty. -/
def searchSpec (q : String) (p : Nat) (o : SearchOutcome) (s : UIState) :
    UIState × List Request :=
  if jsTrim q = "" then (s, [])
  else
    let s1 := { s with error := "", movies := [], totalResults := 0 }
    match o with
    | .ok results total =>
        ({ s1 with movies := results, totalResults := total, page := p },
         [.searchReq q p])
    | .httpError ef =>
        ({ s1 with error := jsOrElse ef "Search failed" }, [.searchReq q p])
    | .thrown msg =>
        ({ s1 with error := msg }, [.searchReq q p])

/-- `fetchReviews(title)` (index.jsx lines 102–112): issue
`GET /api/reviews/<title>` and store the parsed body in `reviews`.
The source never checks `res.ok`, so any resolved response with a JSON
body replaces `reviews`; only a rejected fetch or a body that fails to
parse reaches the catch block, which sets the fixed error message. -/
def fetchReviews (title : Option String) (o : ReviewsOutcome) (s : UIState) :
    UIState × List Request :=
  match o with
  | .resolved _ body => ({ s with reviews := body }, [.reviewsReq title])
  | .thrown =>
      ({ s with error := "Failed to load reviews." }, [.reviewsReq title])

/-- `selectMovie(title)` (index.jsx lines 96–99) together with the
`useEffect` reaction on `selected` (lines 33–37): set `selected`, clear
the draft text, then fetch the reviews for the title. -/
def selectMovie (title : String) (ro : ReviewsOutcome) (s : UIState) :
    UIState × List Request :=
  fetchReviews (some title) ro
    { s with selected := some title, reviewText := "" }

/-- `submitReview` (index.jsx lines 115–132): no-op when the draft trims
to empty; otherwise POST `{movieTitle: selected, reviewText}`. On a
2xx response clear the draft and re-run `fetchReviews(selected)`;
a non-2xx status throws `Error('Submit failed')` and a rejection carries
its own message — either way the catch block stores the message in
`error` and the draft is untouched. -/
def submitReview (po : PlainOutcome) (ro : ReviewsOutcome) (s : UIState) :
    UIState × List Request :=
  if jsTrim s.reviewText = "" then (s, [])
  else
    match po with
    | .resolved status =>
        if resOk status then
          let r := fetchReviews s.selected ro { s with reviewText := "" }
          (r.1, .createReq s.selected s.reviewText :: r.2)
        else
          ({ s with error := "Submit failed" },
           [.createReq s.selected s.reviewText])
    | .thrown msg =>
        ({ s with error := msg }, [.createReq s.selected s.reviewText])

/-- `deleteReview(id)` (index.jsx lines 135–146): do nothing unless the
blocking `confirm` dialog is accepted; then DELETE the review. Only a
status of exactly 204 counts as success and re-runs
`fetchReviews(selected)`; any other status throws
`Error('Delete failed')`, and the catch block stores the message. -/
def deleteReview (id : Nat) (confirmed : Bool) (po : PlainOutcome)
    (ro : ReviewsOutcome) (s : UIState) : UIState × List Request :=
  if !confirmed then (s, [])
  else
    match po with
    | .resolved status =>
        if status = 204 then
          let r := fetchReviews s.selected ro s
          (r.1, .deleteReq id :: r.2)
        else
          ({ s with error := "Delete failed" }, [.deleteReq id])
    | .thrown msg =>
        ({ s with error := msg }, [.deleteReq id])

/-- The back button's `onClick` (index.jsx lines 196–198):
`setSelected(null)` and nothing else; the `useEffect` guard
`if (selected)` fires no fetch for null. -/
def back (s : UIState) : UIState × List Request :=
  ({ s with selected := none }, [])

/-- A rendered pagination button: its page number and whether it is
disabled (the current page's button). -/
structure PageButton where
  page : Nat
  disabled : Bool
deriving DecidableEq

/-- `Math.ceil(totalResults / 10)` over naturals. -/
def totalPages (totalResults : Nat) : Nat :=
  (totalResults + 9) / 10

/-- `renderPagination` (index.jsx lines 74–93): `none` when
`totalPages ≤ 1`, otherwise buttons 1..totalPages in order, the one
matching `page` disabled. -/
def renderPagination (s : UIState) : Option (List PageButton) :=
  let tp := totalPages s.totalResults
  if tp ≤ 1 then none
  else some ((List.range tp).map fun i => ⟨i + 1, i + 1 == s.page⟩)

/-- A concrete movie used in counterexample states. -/
def batman : Movie :=
  ⟨"tt0096895", "Batman", "1989", "N/A"⟩

/-- A concrete review used in counterexample states. -/
def goodReview : Review :=
  ⟨1, "Great film"⟩

/-- A state whose keyword is whitespace-only but which still shows a
previous search's results: reachable by searching, then clearing the
input box (the keyword is a controlled input, edited independently of
the shown results). -/
def blankKwState : UIState :=
  { keyword := " ", page := 1, movies := [batman], totalResults := 15,
    error := "", selected := none, reviews := [], reviewText := "" }

/-- A review-mode state holding one fetched review and no error. -/
def reviewModeState : UIState :=
  { keyword := "batman", page := 1, movies := [batman], totalResults := 15,
    error := "", selected := some "Batman", reviews := [goodReview],
    reviewText := "" }

/-- A review-mode state with a stale error message and a valid draft. -/
def staleErrorState : UIState :=
  { reviewModeState with error := "Search failed", reviewText := "Great film" }

end MovieApp

namespace MovieApp

/-- C1 counterexample: with the whitespace-only keyword `" "`, clicking
the page-2 pagination button (`changePage`) issues a search request and
clears the shown results, while the spec's `Search(" ", 2)` is a no-op;
so the claimed equivalence fails for keywords that are empty after
trim. -/
theorem changePage_ne_searchSpec_on_blank_keyword :
    changePage 2 (.ok [] 0) blankKwState ≠
      searchSpec blankKwState.keyword 2 (.ok [] 0) blankKwState := by
  decide

/-- C1 (amended): for every state whose keyword is non-empty after trim,
clicking the pagination button for page `p` is equivalent to the spec's
`Search(keyword, p)`: the same state transition and the same single
search request. -/
theorem changePage_eq_searchSpec (p : Nat) (o : SearchOutcome) (s : UIState)
    (h : jsTrim s.keyword ≠ "") :
    changePage p o s = searchSpec s.keyword p o s := by
  unfold changePage searchSpec fetchMovies
  rw [if_neg h]

/-- C1 witness: the amended equivalence instantiated at a concrete state
with keyword `"batman"`. -/
theorem changePage_eq_searchSpec_witness :
    changePage 2 (.ok [] 0) reviewModeState =
      searchSpec reviewModeState.keyword 2 (.ok [] 0) reviewModeState :=
  changePage_eq_searchSpec 2 (.ok [] 0) reviewModeState (by decide)

/-- C2 counterexample: a 404 response whose body parses as JSON (here the
empty list) is a failing fetch, yet `fetchReviews` neither sets the
generic load-failure message nor preserves the prior `reviews` list — it
silently replaces the list with the response body, because the source
never checks `res.ok`. -/
theorem fetchReviews_non2xx_replaces_reviews :
    (fetchReviews (some "Batman") (.resolved 404 []) reviewModeState).1.error ≠
        "Failed to load reviews." ∧
      (fetchReviews (some "Batman") (.resolved 404 []) reviewModeState).1.reviews ≠
        reviewModeState.reviews := by
  decide

/-- C2 (amended): only a rejected fetch or an unparseable body sets the
generic load-failure message, and then `reviews` is left exactly as it
was; a resolved response of any status — 2xx or not — has its parsed
body stored in `reviews` with `error` untouched. -/
theorem fetchReviews_failure_contract (title : Option String) (st : Nat)
    (body : List Review) (s : UIState) :
    fetchReviews title .thrown s =
        ({ s with error := "Failed to load reviews." }, [.reviewsReq title]) ∧
      fetchReviews title (.resolved st body) s =
        ({ s with reviews := body }, [.reviewsReq title]) :=
  ⟨rfl, rfl⟩

/-- C3 counterexample: in a state with the stale error `"Search failed"`
and a valid draft, a fully successful `submitReview` (POST resolves 201,
refetch resolves) leaves the stale error in place: the source's
`submitReview` contains no error-clearing step. -/
theorem submitReview_keeps_stale_error :
    staleErrorState.error ≠ "" ∧
      jsTrim staleErrorState.reviewText ≠ "" ∧
      (submitReview (.resolved 201) (.resolved 200 [goodReview])
          staleErrorState).1.error = staleErrorState.error := by
  decide

/-- C3 (amended): `handleSearch` with a valid keyword proactively clears
`error` (after a successful search it is empty), but `submitReview` does
not: after a successful submission and refetch, `error` still holds
whatever value it had before. -/
theorem search_clears_error_submit_does_not (res : List Movie)
    (n st st2 : Nat) (l : List Review) (s : UIState)
    (hk : jsTrim s.keyword ≠ "") (ht : jsTrim s.reviewText ≠ "")
    (hok : resOk st = true) :
    (handleSearch (.ok res n) s).1.error = "" ∧
      (submitReview (.resolved st) (.resolved st2 l) s).1.error = s.error := by
  constructor
  · simp [handleSearch, fetchMovies, hk]
  · simp [submitReview, fetchReviews, ht, hok]

/-- C3 witness: the amended statement at a concrete review-mode state
carrying a stale error. -/
theorem search_clears_error_submit_does_not_witness :
    (handleSearch (.ok [] 0) staleErrorState).1.error = "" ∧
      (submitReview (.resolved 201) (.resolved 200 [])
          staleErrorState).1.error = staleErrorState.error :=
  search_clears_error_submit_does_not [] 0 201 200 [] staleErrorState
    (by decide) (by decide) (by decide)

/-- C4: a confirmed delete succeeds exactly on status 204: a 204
response re-invokes `fetchReviews(selected)` (one reviews request after
the delete request), while any other resolved status — 200 included —
sets `error` to the delete-failure message and issues no reviews
request; a rejected fetch likewise sets `error` and refetches
nothing. -/
theorem deleteReview_success_iff_204 (id st : Nat) (msg : String)
    (ro : ReviewsOutcome) (s : UIState) :
    deleteReview id true (.resolved 204) ro s =
        ((fetchReviews s.selected ro s).1,
          .deleteReq id :: (fetchReviews s.selected ro s).2) ∧
      (st ≠ 204 →
        deleteReview id true (.resolved st) ro s =
          ({ s with error := "Delete failed" }, [.deleteReq id])) ∧
      deleteReview id true (.thrown msg) ro s =
        ({ s with error := msg }, [.deleteReq id]) := by
  refine ⟨rfl, fun h => ?_, rfl⟩
  simp [deleteReview, h]

/-- C4 witness: a confirmed delete resolving with status 200 at a
concrete review-mode state fails without refetching. -/
theorem deleteReview_success_iff_204_witness :
    deleteReview 1 true (.resolved 200) (.resolved 200 []) reviewModeState =
      ({ reviewModeState with error := "Delete failed" }, [.deleteReq 1]) :=
  (deleteReview_success_iff_204 1 200 "x" (.resolved 200 [])
      reviewModeState).2.1 (by decide)

/-- C5: a successful search response for page `p` with `n` total results
yields `page = p`, `movies` taken from the response's results, and
`totalResults = n`; pagination renders `(n + 9) / 10 = ceil(n/10)`
buttons when `n > 10` and nothing when `n ≤ 10`. -/
theorem search_success_pagination (q : String) (res : List Movie)
    (n p : Nat) (s : UIState) :
    (fetchMovies q p (.ok res n) s).1.page = p ∧
      (fetchMovies q p (.ok res n) s).1.movies = res ∧
      (fetchMovies q p (.ok res n) s).1.totalResults = n ∧
      (10 < n →
        ∃ l, renderPagination (fetchMovies q p (.ok res n) s).1 = some l ∧
          l.length = totalPages n) ∧
      (n ≤ 10 → renderPagination (fetchMovies q p (.ok res n) s).1 = none) := by
  refine ⟨rfl, rfl, rfl, fun h => ?_, fun h => ?_⟩
  · have h2 : ¬ totalPages n ≤ 1 := by unfold totalPages; omega
    exact ⟨(List.range (totalPages n)).map fun i => ⟨i + 1, i + 1 == p⟩,
      if_neg h2, by simp⟩
  · have h2 : totalPages n ≤ 1 := by unfold totalPages; omega
    exact if_pos h2

/-- C5 witness: a successful search with 5 total results renders no
pagination, and with 15 total results renders some pagination. -/
theorem search_success_pagination_witness :
    renderPagination (fetchMovies "batman" 1 (.ok [batman] 5) blankKwState).1 =
        none ∧
      (fetchMovies "batman" 1 (.ok [batman] 5) blankKwState).1.page = 1 :=
  ⟨(search_success_pagination "batman" [batman] 5 1 blankKwState).2.2.2.2
      (by decide),
    (search_success_pagination "batman" [batman] 5 1 blankKwState).1⟩

/-- C6: with a non-empty-after-trim draft, `submitReview` POSTs
`{movieTitle: selected, reviewText: draft}`; on a 2xx status it clears
the draft and re-invokes `fetchReviews(selected)`; on a non-2xx status
or a rejection it stores the failure message in `error` and leaves the
draft (and everything else but `error`) unchanged. -/
theorem submitReview_contract (st : Nat) (msg : String) (ro : ReviewsOutcome)
    (s : UIState) (ht : jsTrim s.reviewText ≠ "") :
    (resOk st = true →
        submitReview (.resolved st) ro s =
          ((fetchReviews s.selected ro { s with reviewText := "" }).1,
            .createReq s.selected s.reviewText ::
              (fetchReviews s.selected ro { s with reviewText := "" }).2)) ∧
      (resOk st = false →
        submitReview (.resolved st) ro s =
          ({ s with error := "Submit failed" },
            [.createReq s.selected s.reviewText])) ∧
      submitReview (.thrown msg) ro s =
        ({ s with error := msg }, [.createReq s.selected s.reviewText]) := by
  refine ⟨fun h => ?_, fun h => ?_, ?_⟩
  · simp [submitReview, ht, h]
  · simp [submitReview, ht, h]
  · simp [submitReview, ht]

/-- C6 witness: a POST resolving 500 at a concrete state with a valid
draft fails, keeping the draft text. -/
theorem submitReview_contract_witness :
    submitReview (.resolved 500) (.resolved 200 []) staleErrorState =
      ({ staleErrorState with error := "Submit failed" },
        [.createReq staleErrorState.selected staleErrorState.reviewText]) :=
  (submitReview_contract 500 "x" (.resolved 200 []) staleErrorState
      (by decide)).2.1 (by decide)

/-- C7: a declined confirmation makes `deleteReview` a complete no-op:
no request of any kind is issued and the state — `reviews` included —
is returned unchanged. -/
theorem deleteReview_declined_noop (id : Nat) (po : PlainOutcome)
    (ro : ReviewsOutcome) (s : UIState) :
    deleteReview id false po ro s = (s, []) :=
  rfl

/-- C8: a keyword that is empty or whitespace-only after trim makes
`handleSearch` a complete no-op: no request is issued and the state is
returned unchanged. -/
theorem handleSearch_blank_noop (o : SearchOutcome) (s : UIState)
    (h : jsTrim s.keyword = "") :
    handleSearch o s = (s, []) := by
  simp [handleSearch, h]

/-- C8 witness: the no-op at a concrete state whose keyword is a single
space. -/
theorem handleSearch_blank_noop_witness :
    handleSearch (.ok [batman] 15) blankKwState = (blankKwState, []) :=
  handleSearch_blank_noop (.ok [batman] 15) blankKwState (by decide)

/-- C9: the back action sets `selected` to null and preserves `keyword`,
`movies`, `totalResults` and `page` exactly, issuing no request. -/
theorem back_frame (s : UIState) :
    (back s).1.selected = none ∧ (back s).1.keyword = s.keyword ∧
      (back s).1.movies = s.movies ∧
      (back s).1.totalResults = s.totalResults ∧
      (back s).1.page = s.page ∧ (back s).2 = [] :=
  ⟨rfl, rfl, rfl, rfl, rfl, rfl⟩

/-- C10: a failing search — non-2xx response or rejection — leaves
`page` at its prior value (it is updated only on success), while
`movies` and `totalResults` are cleared unconditionally at the start of
`fetchMovies`. -/
theorem fetchMovies_failure_frame (q : String) (p : Nat) (ef : Option String)
    (msg : String) (s : UIState) :
    ((fetchMovies q p (.httpError ef) s).1.page = s.page ∧
        (fetchMovies q p (.httpError ef) s).1.movies = [] ∧
        (fetchMovies q p (.httpError ef) s).1.totalResults = 0) ∧
      ((fetchMovies q p (.thrown msg) s).1.page = s.page ∧
        (fetchMovies q p (.thrown msg) s).1.movies = [] ∧
        (fetchMovies q p (.thrown msg) s).1.totalResults = 0) :=
  ⟨⟨rfl, rfl, rfl⟩, ⟨rfl, rfl, rfl⟩⟩

end MovieApp
